import Mathlib

/-!
Verification of the retrieval-and-evaluation pipeline of the test_LLM
repository, shallowly embedded in Lean.  Python strings are modelled as
lists of characters, floating-point scores as rationals, and each external
network call (Elasticsearch search, Ollama generation, embedding encode)
as an oracle argument of type Except that either returns a value or
signals the exception the call raised.
-/

namespace TestLLM

/-- Whitespace characters removed by the Python str.strip method
(space, tab, newline, carriage return, vertical tab, form feed). -/
def isPySpace (c : Char) : Bool :=
  c = ' ' || c = '\t' || c = '\n' || c = '\r' || c = Char.ofNat 11 || c = Char.ofNat 12

/-- Python str.strip with no arguments: drop whitespace from both ends. -/
def pyStrip (l : List Char) : List Char :=
  ((l.dropWhile isPySpace).reverse.dropWhile isPySpace).reverse

/-- The two-character paragraph separator used by the chunker. -/
def nlnl : List Char := ['\n', '\n']

/-- Python text.split on the two-newline separator: greedy left-to-right
splitting on non-overlapping occurrences of the separator, keeping empty
pieces, as the str.split method does. -/
def splitOnNlNl : List Char → List (List Char)
  | [] => [[]]
  | '\n' :: '\n' :: rest => [] :: splitOnNlNl rest
  | c :: rest =>
    match splitOnNlNl rest with
    | [] => [[c]]
    | p :: ps => (c :: p) :: ps

/-- The paragraph list computed at the top of split_into_chunks
(src/load_to_elasticsearch.py line 128 and src/rag/retriever.py line 109):
split the text on blank lines, strip each piece, keep the non-empty ones. -/
def paragraphsOf (text : List Char) : List (List Char) :=
  ((splitOnNlNl text).map pyStrip).filter (fun p => !p.isEmpty)

/-- The append of the accumulated chunk performed by the Python code under
the guard if current_chunk: the stripped accumulator is appended only when
it is non-empty. -/
def flushCurrent (chunks : List (List Char)) (current : List Char) : List (List Char) :=
  if current.isEmpty then chunks else chunks ++ [pyStrip current]

/-- The paragraph-packing loop of split_into_chunks
(src/load_to_elasticsearch.py lines 130 to 147, identical in
src/rag/retriever.py lines 111 to 128): greedily accumulate whole
paragraphs, each followed by a blank line, while the accumulated length
plus the next paragraph length stays within chunk_size; otherwise flush
the accumulator (stripped) and restart it from the next paragraph. -/
def chunkLoop (chunk_size : Int) :
    List (List Char) → List (List Char) → List Char → List (List Char)
  | [], chunks, current => flushCurrent chunks current
  | p :: ps, chunks, current =>
    if (current.length : Int) + (p.length : Int) ≤ chunk_size then
      chunkLoop chunk_size ps chunks (current ++ p ++ nlnl)
    else
      chunkLoop chunk_size ps (flushCurrent chunks current) (p ++ nlnl)

/-- split_into_chunks from src/load_to_elasticsearch.py lines 115 to 149,
byte-for-byte the same algorithm as DocumentRetriever._split_into_chunks
in src/rag/retriever.py lines 96 to 130.  The overlap parameter is
accepted but never read anywhere in the body, exactly as in the source,
and no validation of chunk_size or overlap is performed. -/
def split_into_chunks (text : List Char) (chunk_size : Int) (overlap : Int) :
    List (List Char) :=
  chunkLoop chunk_size (paragraphsOf text) [] []

/-- Modelled from the spec: the sliding-window chunker the specification
describes in section 4.1 (advance the window start by chunk_size minus
overlap each step, final shorter remainder emitted if non-empty).  This
definition follows the words of the spec, not the source, and exists only
to be compared with split_into_chunks; the fuel argument bounds the
recursion. -/
def slidingWindowAux : Nat → Nat → Nat → List Char → List (List Char)
  | 0, _, _, _ => []
  | fuel + 1, c, o, l =>
    if l.length ≤ c then (if l.isEmpty then [] else [l])
    else l.take c :: slidingWindowAux fuel c o (l.drop (c - o))

/-- Modelled from the spec: wrapper choosing enough fuel for the window
to traverse the whole text. -/
def slidingWindowChunks (text : List Char) (chunk_size overlap : Nat) :
    List (List Char) :=
  slidingWindowAux (text.length + 1) chunk_size overlap text

/-- calculate_similarity from src/evaluate/similarity.py lines 27 to 67.
The whole body sits in a try block whose except clause returns 0.0, so
the SentenceTransformer encode calls are modelled by the oracle encode,
whose error case stands for a raised exception, and the sklearn
cosine_similarity call by the total oracle cos, which may return any
rational (raw cosine values can be negative).  The result pairs the
returned value with the number of encode calls that were issued, so that
the no-embedding-call part of the contract is expressible.  The guard on
line 40 returns 0.0 when either text is empty (Python falsiness of a
string) before the model is touched; line 61 clamps the value into the
unit interval. -/
def calculate_similarity {α : Type} (encode : List Char → Except (List Char) α)
    (cos : α → α → ℚ) (text1 text2 : List Char) : ℚ × Nat :=
  if text1.isEmpty || text2.isEmpty then (0, 0)
  else
    match encode text1 with
    | .error _ => (0, 1)
    | .ok e1 =>
      match encode text2 with
      | .error _ => (0, 2)
      | .ok e2 => (max 0 (min 1 (cos e1 e2)), 2)

/-- Ascending-by-value order on indices, ties in ascending index order:
the order a stable ascending sort of the index list 0..n-1 produces.
An index list pairwise ordered by this relation is exactly a stable
argsort result for xs. -/
def lexLe (xs : List ℚ) (i j : Nat) : Prop :=
  xs.getD i 0 < xs.getD j 0 ∨ (xs.getD i 0 = xs.getD j 0 ∧ i ≤ j)

instance lexLeDecidable (xs : List ℚ) : DecidableRel (lexLe xs) := fun i j => by
  unfold lexLe; infer_instance

instance lexLeTotal (xs : List ℚ) : IsTotal Nat (lexLe xs) where
  total i j := by
    rcases lt_trichotomy (xs.getD i 0) (xs.getD j 0) with h | h | h
    · exact Or.inl (Or.inl h)
    · rcases Nat.le_total i j with hij | hij
      · exact Or.inl (Or.inr ⟨h, hij⟩)
      · exact Or.inr (Or.inr ⟨h.symm, hij⟩)
    · exact Or.inr (Or.inl h)

instance lexLeTrans (xs : List ℚ) : IsTrans Nat (lexLe xs) where
  trans i j k hij hjk := by
    rcases hij with h1 | ⟨h1, h1i⟩
    · rcases hjk with h2 | ⟨h2, _⟩
      · exact Or.inl (h1.trans h2)
      · exact Or.inl (h2 ▸ h1)
    · rcases hjk with h2 | ⟨h2, h2i⟩
      · exact Or.inl (h1 ▸ h2)
      · exact Or.inr ⟨h1.trans h2, h1i.trans h2i⟩

/-- Model of np.argsort over the similarity list: the indices 0 to n-1
sorted ascending by value.  The tie order of the default numpy kind is
implementation-defined in general (its quicksort is not stable); it
degenerates to a stable insertion sort only on arrays within the
small-array threshold.  This executable model resolves the tie order to
the stable ascending-index one, which is the deterministic behavior on
such small arrays (every concrete input evaluated in this file) and one
admissible resolution otherwise.  Every property proved from this model
below except the concrete small-array counterexamples is independent of
the tie order (lengths, slicing, rank assignment, score monotonicity)
and so holds for every admissible resolution; the tie-order statement is
proved separately from an explicit stability hypothesis on the sort
output rather than from this model. -/
def argsort (xs : List ℚ) : List Nat :=
  List.insertionSort (lexLe xs) (List.range xs.length)

/-- Python and numpy slicing with a negative start, written l[-k:] in the
source: the last k elements, except that k = 0 denotes the slice l[0:],
the whole list. -/
def pySliceLast {β : Type} (k : Nat) (l : List β) : List β :=
  if k = 0 then l else l.drop (l.length - k)

/-- The index sequence computed on lines 304 to 305 of
src/rag/retriever.py: np.argsort(similarities)[-top_k:][::-1]. -/
def topIndices (similarities : List ℚ) (top_k : Nat) : List Nat :=
  (pySliceLast top_k (argsort similarities)).reverse

/-- One entry of self.chunks built in DocumentRetriever._init_local
(src/rag/retriever.py lines 78 to 86): chunk text plus the filename of
the document it came from. -/
structure LocalChunk where
  text : List Char
  filename : List Char
deriving DecidableEq

/-- One retrieval result dictionary with keys text, score, rank, source,
as assembled in retrieve_with_scores (src/rag/retriever.py). -/
structure RetrievalMatch where
  text : List Char
  score : ℚ
  rank : Nat
  source : List Char
deriving DecidableEq

/-- DocumentRetriever._retrieve_local_with_scores
(src/rag/retriever.py lines 290 to 321).  The embedding of the query and
the cosine similarity against every cached chunk vector are external
numeric calls; the list similarities is their outcome, one raw cosine
value per chunk, in chunk order.  The top indices are argsort sliced and
reversed; ranks are assigned by enumerate starting at 1 after sorting. -/
def retrieve_local_with_scores (chunks : List LocalChunk) (similarities : List ℚ)
    (top_k : Nat) : List RetrievalMatch :=
  (List.enumFrom 1 (topIndices similarities top_k)).map fun p =>
    { text := (chunks.getD p.2 ⟨[], []⟩).text
      score := similarities.getD p.2 0
      rank := p.1
      source := (chunks.getD p.2 ⟨[], []⟩).filename }

/-- The chunks field of an Elasticsearch hit source document: missing, a
scalar string, or a list of strings, as discriminated by the isinstance
test in src/rag/retriever.py lines 254 to 279. -/
inductive EsChunksField
  | absent
  | scalar (s : List Char)
  | list (l : List (List Char))
deriving DecidableEq

/-- One hit returned by the Elasticsearch search call: its source
document fields and its relevance score. -/
structure EsHit where
  chunksField : EsChunksField
  content : List Char
  filename : Option (List Char)
  score : ℚ
deriving DecidableEq

/-- Fallback source name used by doc.get with default unknown. -/
def unknownSource : List Char := ("unknown").data

/-- The Python two-argument min on rationals: the first argument when it
is less than or equal to the second, the second otherwise. -/
def pyMin (a b : ℚ) : ℚ := if a ≤ b then a else b

/-- Append one result dictionary with rank equal to len(results) + 1, as
in the results.append calls of _retrieve_elasticsearch_with_scores. -/
def appendHitMatch (score : ℚ) (src : List Char) (acc : List RetrievalMatch)
    (text : List Char) : List RetrievalMatch :=
  acc ++ [{ text := text, score := score, rank := acc.length + 1, source := src }]

/-- Processing of a single Elasticsearch hit in
_retrieve_elasticsearch_with_scores (src/rag/retriever.py lines 246 to
279): normalize the score to min(score / 10, 1); when the chunks field is
a non-empty list take its first top_k entries, when it is a non-empty
scalar take it alone, otherwise re-chunk the content with the default
parameters 500 and 50 and take the first 2 chunks. -/
def esHitAppend (top_k : Nat) (acc : List RetrievalMatch) (hit : EsHit) :
    List RetrievalMatch :=
  let ns := pyMin (hit.score / 10) 1
  let src := hit.filename.getD unknownSource
  match hit.chunksField with
  | .list l =>
    if l.isEmpty then
      ((split_into_chunks hit.content 500 50).take 2).foldl (appendHitMatch ns src) acc
    else
      (l.take top_k).foldl (appendHitMatch ns src) acc
  | .scalar s =>
    if s.isEmpty then
      ((split_into_chunks hit.content 500 50).take 2).foldl (appendHitMatch ns src) acc
    else
      appendHitMatch ns src acc s
  | .absent =>
    ((split_into_chunks hit.content 500 50).take 2).foldl (appendHitMatch ns src) acc

/-- DocumentRetriever._retrieve_elasticsearch_with_scores
(src/rag/retriever.py lines 227 to 288).  The whole body sits in a try
block whose except clause prints the error and returns the empty list, so
the search network call is modelled by the oracle argument searchResult,
whose error case stands for any exception raised by the unreachable
backend.  On success the hits are folded into result dictionaries and the
final list is truncated to top_k. -/
def retrieve_elasticsearch_with_scores (top_k : Nat)
    (searchResult : Except (List Char) (List EsHit)) : List RetrievalMatch :=
  match searchResult with
  | .error _ => []
  | .ok hits => (hits.foldl (esHitAppend top_k) []).take top_k

/-- One question of the test set: the question text and the expected
answer (question_data.get with default empty string). -/
structure QuestionData where
  question : List Char
  answer : List Char
deriving DecidableEq

/-- One per-question result dictionary appended by RAGEvaluator._run_tests
(src/test_llm/package/evaluator.py lines 235 to 255) and by the identical
loop of src/testmain.py lines 394 to 417. -/
structure EvalResult where
  question : List Char
  expected_answer : List Char
  generated_answer : List Char
  similarity : ℚ
  is_correct : Bool
  retrieved_chunks : List RetrievalMatch
  response_time : ℚ
deriving DecidableEq

/-- The outcomes of the external calls made while processing the batch,
one oracle per call site, indexed by the 0-based question position: the
retrieval call, the Ollama generate call, the similarity scoring call and
the elapsed wall-clock time.  An error value stands for the exception the
call raised; the per-question try block of the source catches them all. -/
structure Env where
  retrieveOutcome : Nat → Except (List Char) (List RetrievalMatch)
  generateOutcome : Nat → Except (List Char) (List Char)
  scoreOutcome : Nat → Except (List Char) ℚ
  elapsed : Nat → ℚ

/-- The prefix of the generated_answer recorded for a failed question. -/
def errorTag : List Char := ("ERROR: ").data

/-- The degraded result appended by the except branch of the per-question
loop: generated_answer is ERROR: followed by the cause, similarity 0,
is_correct false, retrieved_chunks the empty list, response_time 0. -/
def degradedResult (q : QuestionData) (e : List Char) : EvalResult :=
  { question := q.question
    expected_answer := q.answer
    generated_answer := errorTag ++ e
    similarity := 0
    is_correct := false
    retrieved_chunks := []
    response_time := 0 }

/-- The body of one iteration of the loop in RAGEvaluator._run_tests
(src/test_llm/package/evaluator.py lines 197 to 255): retrieve, generate,
score, then append the full result; any exception raised by any of the
three calls lands in the except branch, which appends the degraded
result instead.  is_correct is similarity >= threshold. -/
def processQuestion (threshold : ℚ) (env : Env) (i : Nat) (q : QuestionData) :
    EvalResult :=
  match env.retrieveOutcome i with
  | .error e => degradedResult q e
  | .ok retrieved_chunks =>
    match env.generateOutcome i with
    | .error e => degradedResult q e
    | .ok answer =>
      match env.scoreOutcome i with
      | .error e => degradedResult q e
      | .ok similarity =>
        { question := q.question
          expected_answer := q.answer
          generated_answer := answer
          similarity := similarity
          is_correct := decide (threshold ≤ similarity)
          retrieved_chunks := retrieved_chunks
          response_time := env.elapsed i }

/-- RAGEvaluator._run_tests (src/test_llm/package/evaluator.py lines 180
to 257), the per-question loop: one result appended per question, in
order, whether the iteration succeeded or fell into the except branch. -/
def run_tests (threshold : ℚ) (env : Env) (questions : List QuestionData) :
    List EvalResult :=
  (questions.enum).map fun p => processQuestion threshold env p.1 p.2

/-- The batch run in Elasticsearch mode: _run_tests where the retrieval
of question i is _retrieve_elasticsearch_with_scores around the search
call outcome search i.  Because that method catches every exception
itself, the retrieval outcome handed to the loop is always ok. -/
def run_tests_es (threshold : ℚ) (top_k : Nat)
    (search : Nat → Except (List Char) (List EsHit))
    (gen : Nat → Except (List Char) (List Char))
    (score : Nat → Except (List Char) ℚ) (elapsed : Nat → ℚ)
    (questions : List QuestionData) : List EvalResult :=
  run_tests threshold
    { retrieveOutcome := fun i => .ok (retrieve_elasticsearch_with_scores top_k (search i))
      generateOutcome := gen
      scoreOutcome := score
      elapsed := elapsed } questions

/-- The seeding performed in RAGEvaluator.__init__
(src/test_llm/package/evaluator.py lines 46 to 50): when a random_seed is
configured, random.seed replaces the global generator state by a state
that is a function of the seed alone; otherwise the ambient state is left
untouched.  The generator is abstracted by the state type and the
function seedF. -/
def initRngState {σ : Type} (seedF : Int → σ) (random_seed : Option Int)
    (ambient : σ) : σ :=
  match random_seed with
  | some s => seedF s
  | none => ambient

/-- The down-sampling branch of RAGEvaluator._load_questions
(src/test_llm/package/evaluator.py lines 134 to 141): when more questions
were loaded than max_questions, random.sample selects the subset as a
deterministic function of the generator state and the arguments;
otherwise the loaded list is used as is. -/
def sampleLoadedQuestions {σ Q : Type} (sample : σ → List Q → Nat → List Q)
    (state : σ) (loaded : List Q) (max_questions : Nat) : List Q :=
  if max_questions < loaded.length then sample state loaded max_questions else loaded

/-! ### Helper lemmas about the chunker -/

lemma dropWhile_isPySpace_append_nlnl (l : List Char) :
    (l ++ nlnl).dropWhile isPySpace =
      if (l.dropWhile isPySpace).isEmpty then [] else l.dropWhile isPySpace ++ nlnl := by
  induction l with
  | nil => decide
  | cons c l ih =>
    by_cases hc : isPySpace c
    · simpa [List.dropWhile_cons, hc] using ih
    · simp [List.dropWhile_cons, hc]

lemma pyStrip_append_nlnl (l : List Char) : pyStrip (l ++ nlnl) = pyStrip l := by
  unfold pyStrip
  rw [dropWhile_isPySpace_append_nlnl]
  by_cases h : (l.dropWhile isPySpace).isEmpty
  · rw [if_pos h]
    rw [List.isEmpty_iff] at h
    rw [h]
  · rw [if_neg h, List.reverse_append]
    simp [nlnl, List.dropWhile_cons, isPySpace]

/-! ### Claim C2 -/

/-- C2 counterexample.  The claim describes a sliding window advancing by
chunk_size minus overlap whose chunk spans cover the text with
consecutive chunks overlapping by exactly overlap characters.  On the
text aaa-blank-line-bbb with chunk_size 4 and overlap 1 the code returns
the two paragraph chunks aaa and bbb: they differ from the sliding-window
output, the last character of the first chunk does not equal the first
character of the second (so the overlap is 0, not 1), and the chunks hold
6 characters in total while the text has 8, so their spans cannot cover
the interval from 0 to the text length. -/
theorem split_into_chunks_not_sliding_window_example :
    split_into_chunks (("aaa\n\nbbb").data) 4 1 = [("aaa").data, ("bbb").data] ∧
    split_into_chunks (("aaa\n\nbbb").data) 4 1 ≠
      slidingWindowChunks (("aaa\n\nbbb").data) 4 1 ∧
    ("aaa").data.drop (("aaa").data.length - 1) ≠ ("bbb").data.take 1 ∧
    ("aaa").data.length + ("bbb").data.length < ("aaa\n\nbbb").data.length := by
  decide

/-- C2 amended claim, proved: the chunker is paragraph based, not a
sliding window.  Whenever the text consists of a single non-empty
paragraph (no blank-line separator producing further non-empty stripped
pieces), the output is exactly one chunk, the stripped paragraph,
whatever chunk_size and overlap are; in particular a text arbitrarily
longer than chunk_size still yields a single chunk, and no window ever
advances. -/
theorem split_into_chunks_single_paragraph (text : List Char) (c o : Int)
    (p : List Char) (h : paragraphsOf text = [p]) :
    split_into_chunks text c o = [pyStrip p] := by
  unfold split_into_chunks
  rw [h]
  show chunkLoop c [p] [] [] = _
  unfold chunkLoop
  have hne : ((([] : List Char) ++ p ++ nlnl)).isEmpty = false := by
    simp [List.isEmpty_iff, nlnl]
  by_cases hle : ((([] : List Char).length : Int) + (p.length : Int) ≤ c)
  · rw [if_pos hle]
    unfold chunkLoop flushCurrent
    rw [hne]
    simp only [Bool.false_eq_true, if_false, List.nil_append]
    rw [pyStrip_append_nlnl]
  · rw [if_neg hle]
    unfold chunkLoop flushCurrent
    simp only [List.isEmpty_nil, if_true]
    have hne2 : ((p ++ nlnl)).isEmpty = false := by
      simp [List.isEmpty_iff, nlnl]
    rw [hne2]
    simp only [Bool.false_eq_true, if_false, List.nil_append]
    rw [pyStrip_append_nlnl]

/-- C2 witness: the eight-character single-paragraph text abcdefgh with
chunk_size 3 comes out as the single chunk abcdefgh. -/
theorem split_into_chunks_single_paragraph_witness :
    paragraphsOf (("abcdefgh").data) = [("abcdefgh").data] ∧
    split_into_chunks (("abcdefgh").data) 3 1 = [pyStrip (("abcdefgh").data)] :=
  ⟨by decide, split_into_chunks_single_paragraph (("abcdefgh").data) 3 1
    (("abcdefgh").data) (by decide)⟩

/-! ### Claim C3 -/

/-- C3 counterexample.  The claim requires the chunker to fail with a
ConfigError whenever the precondition 0 <= overlap < chunk_size is
violated.  With chunk_size 1 and overlap 5 (and likewise overlap -3) the
code performs no validation and silently returns the chunk list holding
ab, so the claimed failure does not occur. -/
theorem split_into_chunks_no_validation_example :
    split_into_chunks (("ab").data) 1 5 = [("ab").data] ∧
    split_into_chunks (("ab").data) 1 (-3) = [("ab").data] := by
  decide

/-- C3 amended claim, proved: the chunker validates nothing and never
fails; it is a total function whose output does not depend on the overlap
argument at all, for every parameter pair including overlap greater than
or equal to chunk_size and negative overlap. -/
theorem split_into_chunks_ignores_overlap (text : List Char) (chunk_size o1 o2 : Int) :
    split_into_chunks text chunk_size o1 = split_into_chunks text chunk_size o2 :=
  rfl

/-! ### Claim C4 -/

/-- C4, proved as claimed: on either input empty, calculate_similarity
returns exactly 0.0 and issues zero calls to the embedding provider. -/
theorem calculate_similarity_empty_input {α : Type}
    (encode : List Char → Except (List Char) α) (cos : α → α → ℚ)
    (t1 t2 : List Char) (h : t1 = [] ∨ t2 = []) :
    calculate_similarity encode cos t1 t2 = (0, 0) := by
  rcases h with h | h <;> subst h <;> simp [calculate_similarity]

/-- C4 witness: concrete empty first argument. -/
theorem calculate_similarity_empty_input_witness :
    (([] : List Char) = [] ∨ (['a'] : List Char) = []) ∧
    calculate_similarity (fun _ => Except.ok (0 : ℚ)) (fun _ _ => 1) [] ['a'] = (0, 0) :=
  ⟨Or.inl rfl,
    calculate_similarity_empty_input (fun _ => Except.ok (0 : ℚ)) (fun _ _ => 1) [] ['a']
      (Or.inl rfl)⟩

/-! ### Claim C5 -/

/-- C5, proved as claimed: calculate_similarity is total by construction
(the surrounding try absorbs every raising embedding call), its value
always lies in the unit interval thanks to the clamp, and whenever
either embedding call fails the sentinel 0.0 is returned. -/
theorem calculate_similarity_total_bounded {α : Type}
    (encode : List Char → Except (List Char) α) (cos : α → α → ℚ)
    (t1 t2 : List Char) :
    0 ≤ (calculate_similarity encode cos t1 t2).1 ∧
    (calculate_similarity encode cos t1 t2).1 ≤ 1 ∧
    (((∃ m, encode t1 = .error m) ∨ (∃ m, encode t2 = .error m)) →
      (calculate_similarity encode cos t1 t2).1 = 0) := by
  unfold calculate_similarity
  by_cases hemp : (t1.isEmpty || t2.isEmpty)
  · simp [hemp]
  · cases he1 : encode t1 with
    | error m => simp [hemp, he1]
    | ok e1 =>
      cases he2 : encode t2 with
      | error m => simp [hemp, he1, he2]
      | ok e2 =>
        refine ⟨?_, ?_, ?_⟩
        · simp only [hemp, he1, he2, Bool.false_eq_true, if_false]
          exact le_max_left 0 _
        · simp only [hemp, he1, he2, Bool.false_eq_true, if_false]
          exact max_le (by norm_num) (min_le_left 1 _)
        · rintro (⟨m, hm⟩ | ⟨m, hm⟩) <;> simp at hm

/-- C5 witness: with an embedding provider that always raises and
non-empty inputs, the scorer returns the sentinel 0. -/
theorem calculate_similarity_total_bounded_witness :
    (calculate_similarity (α := ℚ) (fun _ => Except.error []) (fun _ _ => 2)
      ['a'] ['b']).1 = 0 :=
  (calculate_similarity_total_bounded (fun _ => Except.error []) (fun _ _ => 2)
    ['a'] ['b']).2.2 (Or.inl ⟨[], rfl⟩)

/-! ### Claim C9 -/

/-- C9, proved as claimed: when a random_seed is configured, the state
used at sampling time is seedF of the seed alone, so two runs with
identical seed and identical loaded question set select identical subsets
in identical order no matter what the ambient generator state was before
construction; the second conjunct pins the sampled subset down as a
function of the seed and the inputs only. -/
theorem sampling_reproducible {σ Q : Type} (seedF : Int → σ)
    (sample : σ → List Q → Nat → List Q) (s : Int) (g1 g2 : σ)
    (loaded : List Q) (maxq : Nat) (h : maxq < loaded.length) :
    sampleLoadedQuestions sample (initRngState seedF (some s) g1) loaded maxq =
      sampleLoadedQuestions sample (initRngState seedF (some s) g2) loaded maxq ∧
    sampleLoadedQuestions sample (initRngState seedF (some s) g1) loaded maxq =
      sample (seedF s) loaded maxq := by
  refine ⟨rfl, ?_⟩
  unfold sampleLoadedQuestions initRngState
  rw [if_pos h]

/-- C9 witness: three loaded questions, max two, seed 7, two different
ambient states. -/
theorem sampling_reproducible_witness :
    2 < ([10, 20, 30] : List Nat).length ∧
    sampleLoadedQuestions (fun _ l n => l.take n)
        (initRngState (fun s => s) (some 7) 0) [10, 20, 30] 2 =
      sampleLoadedQuestions (fun _ l n => l.take n)
        (initRngState (fun s => s) (some 7) 99) [10, 20, 30] 2 :=
  ⟨by decide,
    (sampling_reproducible (fun s => s) (fun _ l n => l.take n) 7 0 99 [10, 20, 30] 2
      (by decide)).1⟩

/-! ### Claim C10 -/

lemma processQuestion_question (threshold : ℚ) (env : Env) (i : Nat)
    (q : QuestionData) : (processQuestion threshold env i q).question = q.question := by
  cases hr : env.retrieveOutcome i <;>
    cases hg : env.generateOutcome i <;>
      cases hs : env.scoreOutcome i <;>
        simp [processQuestion, degradedResult, hr, hg, hs]

/-- C10, proved as claimed: the evaluation loop returns exactly one
result entry per input question in input order, whatever the outcomes of
the retrieval, generation and scoring calls are, because the per-question
exception handler converts every failure into a degraded entry rather
than dropping the question. -/
theorem run_tests_length_and_order (threshold : ℚ) (env : Env)
    (questions : List QuestionData) :
    (run_tests threshold env questions).length = questions.length ∧
    (run_tests threshold env questions).map (fun r => r.question) =
      questions.map (fun q => q.question) := by
  constructor
  · simp [run_tests]
  · unfold run_tests
    rw [List.map_map]
    have hfun : ((fun r : EvalResult => r.question) ∘
        fun p : Nat × QuestionData => processQuestion threshold env p.1 p.2) =
        (fun q : QuestionData => q.question) ∘ Prod.snd := by
      funext p
      exact processQuestion_question threshold env p.1 p.2
    rw [hfun, ← List.map_map]
    rw [show List.map Prod.snd questions.enum = questions from List.enum_map_snd questions]

/-! ### Helper lemmas about the local retriever -/

lemma argsort_length (xs : List ℚ) : (argsort xs).length = xs.length := by
  unfold argsort
  rw [(List.perm_insertionSort (lexLe xs) (List.range xs.length)).length_eq,
    List.length_range]

lemma argsort_pairwise (xs : List ℚ) : List.Pairwise (lexLe xs) (argsort xs) :=
  List.sorted_insertionSort (lexLe xs) (List.range xs.length)

lemma pySliceLast_sublist {β : Type} (k : Nat) (l : List β) :
    (pySliceLast k l).Sublist l := by
  unfold pySliceLast
  by_cases hk : k = 0
  · rw [if_pos hk]
  · rw [if_neg hk]
    exact List.drop_sublist _ _

lemma pySliceLast_length_of_pos {β : Type} (k : Nat) (l : List β) (hk : 1 ≤ k) :
    (pySliceLast k l).length = min k l.length := by
  unfold pySliceLast
  rw [if_neg (by omega), List.length_drop]
  omega

lemma topIndices_length (sims : List ℚ) (k : Nat) (hk : 1 ≤ k) :
    (topIndices sims k).length = min k sims.length := by
  unfold topIndices
  rw [List.length_reverse, pySliceLast_length_of_pos _ _ hk, argsort_length]

lemma topIndices_pairwise (sims : List ℚ) (k : Nat) :
    List.Pairwise (fun a b => lexLe sims b a) (topIndices sims k) := by
  unfold topIndices
  exact List.pairwise_reverse.mpr
    ((argsort_pairwise sims).sublist (pySliceLast_sublist k _))

/-! ### Claim C6 -/

/-- C6 counterexample.  The claim quantifies over every top_k, but for
top_k equal to 0 the Python slice written minus-top_k-colon denotes the
whole array rather than the empty one, so a one-chunk corpus yields one
match instead of the claimed min(0, 1) = 0. -/
theorem retrieve_local_topk_zero_example :
    (retrieve_local_with_scores [⟨['a'], ['f']⟩] [1] 0).length = 1 ∧
    (1 : Nat) ≠ min 0 1 := by
  decide

/-- C6 amended claim, proved: for every corpus, every similarity outcome
and every top_k of at least 1, the local backend returns exactly
min(top_k, corpus size) matches, assigns the 1-based ranks 1..len in
order, and its scores are non-increasing in rank order. -/
theorem retrieve_local_ranked_bounded (chunks : List LocalChunk) (sims : List ℚ)
    (k : Nat) (hk : 1 ≤ k) (hlen : chunks.length = sims.length) :
    (retrieve_local_with_scores chunks sims k).length = min k chunks.length ∧
    (∀ i (hi : i < (retrieve_local_with_scores chunks sims k).length),
      ((retrieve_local_with_scores chunks sims k).get ⟨i, hi⟩).rank = i + 1) ∧
    List.Pairwise (fun a b => b.score ≤ a.score)
      (retrieve_local_with_scores chunks sims k) := by
  refine ⟨?_, ?_, ?_⟩
  · unfold retrieve_local_with_scores
    rw [List.length_map, List.enumFrom_length, topIndices_length sims k hk, hlen]
  · intro i hi
    simp only [retrieve_local_with_scores, List.get_eq_getElem, List.getElem_map,
      List.getElem_enumFrom]
    omega
  · have h3 : List.Pairwise (fun a b => lexLe sims b a)
        (List.map Prod.snd (List.enumFrom 1 (topIndices sims k))) := by
      rw [List.enumFrom_map_snd]
      exact topIndices_pairwise sims k
    have h2 : List.Pairwise (fun p q : Nat × Nat => lexLe sims q.2 p.2)
        (List.enumFrom 1 (topIndices sims k)) := List.pairwise_map.mp h3
    unfold retrieve_local_with_scores
    refine h2.map _ ?_
    intro p q hpq
    rcases hpq with h | ⟨h, _⟩
    · exact le_of_lt h
    · exact le_of_eq h

/-- C6 witness: three chunks with scores 3, 1, 2 and top_k 2. -/
theorem retrieve_local_ranked_bounded_witness :
    1 ≤ 2 ∧
    ([⟨['a'], ['f']⟩, ⟨['b'], ['f']⟩, ⟨['c'], ['f']⟩] : List LocalChunk).length =
      ([3, 1, 2] : List ℚ).length ∧
    (retrieve_local_with_scores [⟨['a'], ['f']⟩, ⟨['b'], ['f']⟩, ⟨['c'], ['f']⟩]
        [3, 1, 2] 2).length =
      min 2 ([⟨['a'], ['f']⟩, ⟨['b'], ['f']⟩, ⟨['c'], ['f']⟩] : List LocalChunk).length :=
  ⟨by decide, by decide,
    (retrieve_local_ranked_bounded [⟨['a'], ['f']⟩, ⟨['b'], ['f']⟩, ⟨['c'], ['f']⟩]
      [3, 1, 2] 2 (by decide) (by decide)).1⟩

/-! ### Claim C7 -/

/-- C7 counterexample.  Two chunks with equal similarity scores and top_k
2: the code returns the chunk with corpus index 1 at rank 1 and the chunk
with corpus index 0 at rank 2, the opposite of the claimed
smaller-index-first (stable, first-seen-wins) order. -/
theorem retrieve_local_tie_order_example :
    (retrieve_local_with_scores [⟨['a'], ['f']⟩, ⟨['b'], ['f']⟩] [1, 1] 2).map
        (fun m => m.text) = [['b'], ['a']] ∧
    (['b'] : List Char) ≠ ['a'] := by
  decide

/-- C7 amended claim, proved: ties are never broken by ascending
original candidate index.  The claim presumes the backend sort is stable
(first-seen wins); this theorem takes exactly that premise as a
hypothesis on the argsort output out (ascending by value with ties in
ascending index order, no duplicate indices) instead of baking it into
the model, because numpy guarantees stability only on arrays within its
small-array insertion-sort threshold and leaves the tie order
implementation-defined beyond it.  Whenever the output is stable in that
sense, the subsequent slice and reversal written minus-top_k-colon then
colon-colon-minus-1 deliver the equal-scored candidates in strictly
DESCENDING index order, so the one with the larger corpus index gets the
lower rank, the opposite of first-seen-wins; on larger arrays where
numpy may return some other ascending order, no index tie order is
guaranteed at all, and in no case is the claimed ascending order
established. -/
theorem reversed_stable_slice_tie_descending (sims : List ℚ) (k : Nat)
    (out : List Nat) (hsorted : List.Pairwise (lexLe sims) out)
    (hnodup : out.Nodup) :
    List.Pairwise (fun a b => sims.getD b 0 < sims.getD a 0 ∨
      (sims.getD a 0 = sims.getD b 0 ∧ b < a)) ((pySliceLast k out).reverse) := by
  have hp : List.Pairwise (fun a b => lexLe sims b a) ((pySliceLast k out).reverse) :=
    List.pairwise_reverse.mpr (hsorted.sublist (pySliceLast_sublist k out))
  have hn : List.Pairwise (fun a b => a ≠ b) ((pySliceLast k out).reverse) :=
    List.nodup_reverse.mpr (hnodup.sublist (pySliceLast_sublist k out))
  refine (hp.and hn).imp ?_
  rintro a b ⟨hab, hne⟩
  rcases hab with h | ⟨h, hba⟩
  · exact Or.inl h
  · exact Or.inr ⟨h.symm, lt_of_le_of_ne hba hne.symm⟩

/-- C7 witness: the stable argsort output 0, 1 of the tied score pair,
sliced with top_k 2 and reversed, comes out in descending index order. -/
theorem reversed_stable_slice_tie_descending_witness :
    List.Pairwise (lexLe [1, 1]) [0, 1] ∧ ([0, 1] : List Nat).Nodup ∧
    List.Pairwise (fun a b => ([1, 1] : List ℚ).getD b 0 < ([1, 1] : List ℚ).getD a 0 ∨
      (([1, 1] : List ℚ).getD a 0 = ([1, 1] : List ℚ).getD b 0 ∧ b < a))
      ((pySliceLast 2 [0, 1]).reverse) :=
  ⟨by decide, by decide,
    reversed_stable_slice_tie_descending [1, 1] 2 [0, 1] (by decide) (by decide)⟩

/-! ### Helper lemmas about the evaluation loop -/

lemma run_tests_getElem? (threshold : ℚ) (env : Env) (questions : List QuestionData)
    (i : Nat) :
    (run_tests threshold env questions)[i]? =
      (questions[i]?).map (fun q => processQuestion threshold env i q) := by
  unfold run_tests
  rw [List.getElem?_map, List.getElem?_enum]
  cases questions[i]? <;> rfl

/-! ### Claim C8 -/

/-- C8 counterexample.  One question whose retrieval returns a non-empty
match list and whose generation call raises: the recorded result carries
the error answer, similarity 0 and is_correct false as claimed, but its
retrieved_chunks field is the empty list, not the non-empty match list
that had been obtained before the failure, refuting the part of the claim
that says those matches are still recorded. -/
theorem generate_failure_discards_chunks_example :
    run_tests 1 ⟨fun _ => Except.ok [⟨['c'], 1, 1, ['f']⟩], fun _ => Except.error ['b'],
        fun _ => Except.ok 1, fun _ => 0⟩ [⟨['q'], ['a']⟩] =
      [⟨['q'], ['a'], errorTag ++ ['b'], 0, false, [], 0⟩] ∧
    ([⟨['c'], 1, 1, ['f']⟩] : List RetrievalMatch) ≠ [] := by
  decide

/-- C8 amended claim, proved: when generation fails after retrieval
succeeded, the orchestrator records a degraded result with
generated_answer ERROR: cause, similarity 0 and is_correct false, whose
retrieval match list is empty (the matches obtained before the failure
are discarded by the exception handler, not recorded), and proceeds so
that the batch still yields one result per question. -/
theorem run_tests_generate_failure_degraded (threshold : ℚ) (env : Env)
    (questions : List QuestionData) (i : Nat) (q : QuestionData)
    (chunks : List RetrievalMatch) (e : List Char)
    (hq : questions[i]? = some q)
    (hr : env.retrieveOutcome i = .ok chunks)
    (hg : env.generateOutcome i = .error e) :
    (run_tests threshold env questions)[i]? = some (degradedResult q e) ∧
    (degradedResult q e).generated_answer = errorTag ++ e ∧
    (degradedResult q e).similarity = 0 ∧
    (degradedResult q e).is_correct = false ∧
    (degradedResult q e).retrieved_chunks = [] ∧
    (run_tests threshold env questions).length = questions.length := by
  refine ⟨?_, rfl, rfl, rfl, rfl, by simp [run_tests]⟩
  rw [run_tests_getElem?, hq]
  simp [processQuestion, hr, hg]

/-- C8 witness: the concrete one-question batch of the counterexample,
driven through the amended theorem. -/
theorem run_tests_generate_failure_degraded_witness :
    (([⟨['q'], ['a']⟩] : List QuestionData)[0]? = some ⟨['q'], ['a']⟩) ∧
    (run_tests 1 ⟨fun _ => Except.ok [⟨['c'], 1, 1, ['f']⟩], fun _ => Except.error ['b'],
        fun _ => Except.ok 1, fun _ => 0⟩ [⟨['q'], ['a']⟩])[0]? =
      some (degradedResult ⟨['q'], ['a']⟩ ['b']) :=
  ⟨rfl,
    (run_tests_generate_failure_degraded 1
      ⟨fun _ => Except.ok [⟨['c'], 1, 1, ['f']⟩], fun _ => Except.error ['b'],
        fun _ => Except.ok 1, fun _ => 0⟩
      [⟨['q'], ['a']⟩] 0 ⟨['q'], ['a']⟩ [⟨['c'], 1, 1, ['f']⟩] ['b'] rfl rfl rfl).1⟩

/-! ### Claim C1 -/

/-- C1 counterexample.  A batch of 5 questions in Elasticsearch mode
where the search call succeeds for question 1 and raises from question 2
onward (the backend became unreachable): the run does not terminate with
exactly 1 completed result plus a fatal error, it produces all 5 results,
the later 4 with empty retrieval matches, because the retriever catches
the exception itself and returns an empty list. -/
theorem run_tests_es_no_abort_example :
    (run_tests_es 1 3
        (fun i => if i = 0 then Except.ok [⟨EsChunksField.list [['c']], [], some ['f'], 5⟩]
          else Except.error ['E'])
        (fun _ => Except.ok ['a']) (fun _ => Except.ok 1) (fun _ => 0)
        [⟨['q'], []⟩, ⟨['r'], []⟩, ⟨['s'], []⟩, ⟨['t'], []⟩, ⟨['u'], []⟩]).length = 5 ∧
    (5 : Nat) ≠ 1 ∧
    (run_tests_es 1 3
        (fun i => if i = 0 then Except.ok [⟨EsChunksField.list [['c']], [], some ['f'], 5⟩]
          else Except.error ['E'])
        (fun _ => Except.ok ['a']) (fun _ => Except.ok 1) (fun _ => 0)
        [⟨['q'], []⟩, ⟨['r'], []⟩, ⟨['s'], []⟩, ⟨['t'], []⟩, ⟨['u'], []⟩]).map
        (fun r => r.retrieved_chunks.map (fun m => m.text)) =
      [[['c']], [], [], [], []] := by
  decide

/-- C1 amended claim, proved: if the remote backend becomes unreachable
at any question, the search exception is absorbed inside the retriever
(which returns an empty match list), the evaluation loop continues, and
the run produces one result for every question in the batch; the
questions whose search failed record an empty retrieval match list.
There is no fatal abort and no truncation of the result list. -/
theorem run_tests_es_backend_error_yields_full_results (threshold : ℚ) (top_k : Nat)
    (search : Nat → Except (List Char) (List EsHit))
    (gen : Nat → Except (List Char) (List Char))
    (score : Nat → Except (List Char) ℚ) (elapsed : Nat → ℚ)
    (questions : List QuestionData) :
    (run_tests_es threshold top_k search gen score elapsed questions).length =
      questions.length ∧
    (∀ i e q, search i = .error e → questions[i]? = some q →
      ((run_tests_es threshold top_k search gen score elapsed questions)[i]?).map
        (fun r => r.retrieved_chunks) = some []) := by
  constructor
  · simp [run_tests_es, run_tests]
  · intro i e q hse hq
    unfold run_tests_es
    rw [run_tests_getElem?, hq]
    have hro : retrieve_elasticsearch_with_scores top_k (search i) = [] := by
      rw [hse]
      rfl
    cases hgi : gen i <;> cases hsi : score i <;>
      simp [processQuestion, degradedResult, hro, hgi, hsi]

/-- C1 witness: two questions, search raising on the second. -/
theorem run_tests_es_backend_error_yields_full_results_witness :
    ((fun i => if i = 0 then Except.ok ([] : List EsHit) else Except.error ['E']) 1 =
      Except.error ['E']) ∧
    (([⟨['q'], []⟩, ⟨['r'], []⟩] : List QuestionData)[1]? = some ⟨['r'], []⟩) ∧
    ((run_tests_es 1 3 (fun i => if i = 0 then Except.ok [] else Except.error ['E'])
        (fun _ => Except.ok ['a']) (fun _ => Except.ok 1) (fun _ => 0)
        [⟨['q'], []⟩, ⟨['r'], []⟩])[1]?).map (fun r => r.retrieved_chunks) = some [] :=
  ⟨rfl, rfl,
    (run_tests_es_backend_error_yields_full_results 1 3
      (fun i => if i = 0 then Except.ok [] else Except.error ['E'])
      (fun _ => Except.ok ['a']) (fun _ => Except.ok 1) (fun _ => 0)
      [⟨['q'], []⟩, ⟨['r'], []⟩]).2 1 ['E'] ⟨['r'], []⟩ rfl rfl⟩

end TestLLM
